import Mathlib

/-!
Verification of the TravelWithGhost backend excerpt: a shallow embedding of
`backend/trips/serializers.py` and
`backend/trips/migrations/0003_add_goa_destination.py`.

Database tables are lists of rows; `objects.create` appends a row at the end
of its table.  Python truthiness of nullable fields is made explicit:
`none` (null), `some ""` (empty string) and `some 0` (zero) are falsy.
-/

namespace TravelWithGhost

/-- Profile row.  The Django model itself is not part of the excerpt;
field nullability is modelled from the spec (section 3: "display name,
location, age, gender, profession, photo — one-to-one with User"), with
`Option` capturing the null/empty/zero truthiness distinctions the
serializer relies on.  `photos` is modelled by its stored URL. -/
structure Profile where
  user : Nat
  name : Option String
  current_location : Option String
  age : Option Int
  gender : Option String
  profession : Option String
  photos : Option String
  deriving Repr, DecidableEq

/-- User row (Django auth user): id, username, email, password. -/
structure User where
  id : Nat
  username : String
  email : String
  password : String
  deriving Repr, DecidableEq

/-- City row: name and optional image (stored file name). -/
structure City where
  name : String
  image : Option String
  deriving Repr, DecidableEq

/-- The flat fields of the trip-creation payload (the writable `Meta.fields`
of `TripCreateSerializer`, minus the nested `itinerary` list). -/
structure TripData where
  group_name : String
  destination : Nat
  start_date : String
  end_date : String
  description : String
  budget : Int
  min_age : Int
  max_age : Int
  required_members : Nat
  deriving Repr, DecidableEq

/-- Trip row: the payload fields plus primary key and host user id. -/
structure Trip extends TripData where
  id : Nat
  host : Nat
  deriving Repr, DecidableEq

/-- TripItinerary row: owning trip id, day index, description. -/
structure TripItinerary where
  trip : Nat
  day : Nat
  description : String
  deriving Repr, DecidableEq

/-- One entry of the `itinerary` list in the trip-creation payload. -/
structure ItineraryEntry where
  day : Nat
  description : String
  deriving Repr, DecidableEq

/-- The persistent store: one list per table, plus primary-key counters. -/
structure DB where
  users : List User
  profiles : List Profile
  cities : List City
  trips : List Trip
  itineraries : List TripItinerary
  nextUserId : Nat
  nextTripId : Nat
  deriving Repr, DecidableEq

/-- Python truthiness of a nullable string: `None` and `""` are falsy. -/
def truthyStr : Option String → Bool
  | none => false
  | some s => s != ""

/-- Python truthiness of a nullable integer: `None` and `0` are falsy. -/
def truthyInt : Option Int → Bool
  | none => false
  | some n => n != 0

/-- Python `str.capitalize()`: first character upper-cased, the rest
lower-cased (on a character list). -/
def pyCapitalize : List Char → List Char
  | [] => []
  | c :: cs => c.toUpper :: cs.map Char.toLower

/-- Splitting a character list at every character satisfying `P`,
keeping empty pieces — the semantics of Python `str.split(sep)` per
single-character separator. -/
def pySplitOnP (P : Char → Bool) : List Char → List (List Char)
  | [] => [[]]
  | c :: cs =>
    if P c then [] :: pySplitOnP P cs
    else
      match pySplitOnP P cs with
      | [] => [[c]]
      | w :: ws => (c :: w) :: ws

/-- Python `email.split('@')`. -/
def pySplitOn (sep : Char) : List Char → List (List Char) :=
  pySplitOnP (· == sep)

/-- Python `str.split()` with no argument: split on whitespace runs,
dropping empty pieces. -/
def pySplitWs (l : List Char) : List (List Char) :=
  (pySplitOnP (·.isWhitespace) l).filter (fun w => !w.isEmpty)

/-- Python `str.replace(old, new)` for single-character patterns. -/
def pyReplace (old new : Char) (l : List Char) : List Char :=
  l.map fun c => if c = old then new else c

/-- `UserSerializer.format_email_to_name`: "Anonymous Traveler" for a falsy
email; otherwise take the part before the first `'@'`, replace `'.'` and
`'_'` by spaces, capitalize each word, and join the words with spaces. -/
def format_email_to_name (email : String) : String :=
  if email = "" then "Anonymous Traveler"
  else
    let localPart := (pySplitOn '@' email.toList).headD []
    let name := pyReplace '_' ' ' (pyReplace '.' ' ' localPart)
    String.mk (List.intercalate [' '] ((pySplitWs name).map pyCapitalize))

/-- The dictionary returned by `UserSerializer.get_profile`. -/
structure SerializedProfile where
  name : String
  current_location : String
  age : Option Int
  gender : Option String
  profession : String
  photos : Option String
  is_profile_complete : Bool
  deriving Repr, DecidableEq

/-- `UserSerializer.get_profile`.  `request` is the optional request context
(modelled by the absolute-URI prefix that `request.build_absolute_uri`
prepends); `p` is the result of the `Profile.objects.get` lookup, `none`
when `Profile.DoesNotExist` was raised. -/
def get_profile (request : Option String) (p : Option Profile) (email : String) :
    SerializedProfile :=
  match p with
  | some profile =>
    let photos_url : Option String :=
      if truthyStr profile.photos then
        match request with
        | some base => some (base ++ profile.photos.getD "")
        | none => profile.photos
      else none
    { name :=
        if truthyStr profile.name then profile.name.getD ""
        else format_email_to_name email
      current_location :=
        if truthyStr profile.current_location then profile.current_location.getD ""
        else "Location not set"
      age := if truthyInt profile.age then profile.age else none
      gender := if truthyStr profile.gender then profile.gender else none
      profession :=
        if truthyStr profile.profession then profile.profession.getD ""
        else "Adventurer"
      photos := photos_url
      is_profile_complete :=
        truthyStr profile.name && truthyStr profile.current_location &&
          truthyInt profile.age && truthyStr profile.gender }
  | none =>
    { name := format_email_to_name email
      current_location := "Location not set"
      age := none
      gender := none
      profession := "Adventurer"
      photos := none
      is_profile_complete := false }

/-- The registration payload (`RegisterSerializer` writable fields). -/
structure RegPayload where
  username : String
  email : String
  password1 : String
  password2 : String
  deriving Repr, DecidableEq

/-- `RegisterSerializer.validate`: reject when the two password fields
differ, otherwise pass the attributes through. -/
def register_validate (attrs : RegPayload) : Except String RegPayload :=
  if attrs.password1 != attrs.password2 then
    Except.error "Password fields didn't match."
  else Except.ok attrs

/-- `RegisterSerializer.create`: create the user, then the empty profile
linked to it.  `profession` and `photos` are not passed by the source;
their model-level defaults are outside the excerpt and are modelled as
absent (`none`). -/
def register_create (db : DB) (v : RegPayload) : DB × Nat :=
  let uid := db.nextUserId
  let user : User :=
    { id := uid, username := v.username, email := v.email, password := v.password1 }
  let profile : Profile :=
    { user := uid, name := some "", current_location := some "",
      age := some 0, gender := some "", profession := none, photos := none }
  ({ db with
      users := db.users ++ [user]
      profiles := db.profiles ++ [profile]
      nextUserId := uid + 1 }, uid)

/-- The registration flow: validation, then creation.  A validation error
aborts before `create` runs, leaving the store untouched; the resulting
state is paired with the optional error message. -/
def register (db : DB) (attrs : RegPayload) : DB × Option String :=
  match register_validate attrs with
  | Except.error e => (db, some e)
  | Except.ok v => ((register_create db v).1, none)

/-- `TripCreateSerializer.create`: pop the itinerary list, set the request
user as host, create the trip row, then create one itinerary row per entry.
Returns the new state and the new trip's id. -/
def trip_create (db : DB) (requestUser : Nat) (data : TripData)
    (itinerary : List ItineraryEntry) : DB × Nat :=
  let tid := db.nextTripId
  let trip : Trip := { toTripData := data, id := tid, host := requestUser }
  let db1 := { db with trips := db.trips ++ [trip], nextTripId := tid + 1 }
  let db2 := itinerary.foldl
    (fun d item =>
      { d with itineraries :=
          d.itineraries ++ [{ trip := tid, day := item.day,
                              description := item.description }] })
    db1
  (db2, tid)

/-- Forward seed migration `add_goa_destination`: if no city named "Goa"
exists, create one; the bundled image is attached only when the source file
`media/Goa.jpg` exists on disk (`mediaGoaExists` models that check). -/
def add_goa_destination (mediaGoaExists : Bool) (db : DB) : DB :=
  if db.cities.any (fun c => c.name == "Goa") then db
  else
    let city : City :=
      { name := "Goa", image := if mediaGoaExists then some "Goa.jpg" else none }
    { db with cities := db.cities ++ [city] }

/-- Reverse seed migration `remove_goa_destination`: delete every city row
named "Goa". -/
def remove_goa_destination (db : DB) : DB :=
  { db with cities := db.cities.filter (fun c => c.name != "Goa") }

/-! Helper lemmas. -/

theorem truthyStr_eq_true_iff (o : Option String) :
    truthyStr o = true ↔ ∃ s, o = some s ∧ s ≠ "" := by
  cases o <;> simp [truthyStr]

theorem truthyInt_eq_true_iff (o : Option Int) :
    truthyInt o = true ↔ ∃ n, o = some n ∧ n ≠ 0 := by
  cases o <;> simp [truthyInt]

/-! Claim theorems. -/

/-- C1: for every user with a Profile row, the serialized
`is_profile_complete` flag is true iff the profile's name,
current_location, age and gender are all truthy (a non-empty string /
non-zero integer that is not null). -/
theorem complete_flag_iff_truthy_fields (request : Option String) (p : Profile)
    (email : String) :
    (get_profile request (some p) email).is_profile_complete = true ↔
      ((∃ s, p.name = some s ∧ s ≠ "") ∧
       (∃ s, p.current_location = some s ∧ s ≠ "") ∧
       (∃ n, p.age = some n ∧ n ≠ 0) ∧
       (∃ s, p.gender = some s ∧ s ≠ "")) := by
  simp [get_profile, Bool.and_eq_true, truthyStr_eq_true_iff, truthyInt_eq_true_iff,
    and_assoc]

/-- C2: a registration payload whose two password fields differ is rejected
with the field-level message "Password fields didn't match." and leaves the
stored state unchanged (no user record is created). -/
theorem register_mismatch_rejected (db : DB) (attrs : RegPayload)
    (h : attrs.password1 ≠ attrs.password2) :
    (register db attrs).1 = db ∧
      (register db attrs).2 = some "Password fields didn't match." := by
  have hb : (attrs.password1 != attrs.password2) = true := bne_iff_ne.mpr h
  simp [register, register_validate, hb]

/-- Witness for C2 at a concrete mismatching payload over the empty store. -/
theorem register_mismatch_rejected_witness :
    (register ⟨[], [], [], [], [], 0, 0⟩ ⟨"u", "u@x.com", "pw1", "pw2"⟩).1 =
        ⟨[], [], [], [], [], 0, 0⟩ ∧
      (register ⟨[], [], [], [], [], 0, 0⟩ ⟨"u", "u@x.com", "pw1", "pw2"⟩).2 =
        some "Password fields didn't match." :=
  register_mismatch_rejected ⟨[], [], [], [], [], 0, 0⟩
    ⟨"u", "u@x.com", "pw1", "pw2"⟩ (by decide)

/-- C8: a successful registration (matching passwords) reports no error,
appends exactly one user row, and appends exactly one Profile row linked to
the new user's id, with age 0 and empty strings for name, location and
gender; under the freshness invariant on user ids, the new store holds
exactly one profile linked to the new user. -/
theorem register_creates_empty_profile (db : DB) (attrs : RegPayload)
    (h : attrs.password1 = attrs.password2) :
    (register db attrs).2 = none ∧
    (register db attrs).1.users = db.users ++
      [{ id := db.nextUserId, username := attrs.username, email := attrs.email,
         password := attrs.password1 }] ∧
    (register db attrs).1.profiles = db.profiles ++
      [{ user := db.nextUserId, name := some "", current_location := some "",
         age := some 0, gender := some "", profession := none, photos := none }] ∧
    ((∀ q ∈ db.profiles, q.user ≠ db.nextUserId) →
      ((register db attrs).1.profiles.filter
          (fun q => q.user == db.nextUserId)).length = 1) := by
  have hb : (attrs.password1 != attrs.password2) = false := by
    simp [bne, h]
  have hreg : register db attrs = ((register_create db attrs).1, none) := by
    simp [register, register_validate, hb]
  rw [hreg]
  refine ⟨rfl, rfl, rfl, ?_⟩
  intro hfresh
  have h1 : db.profiles.filter (fun q => q.user == db.nextUserId) = [] := by
    rw [List.filter_eq_nil_iff]
    intro q hq
    simp [hfresh q hq]
  simp [register_create, List.filter_append, h1]

/-- Witness for C8 at a concrete matching payload over the empty store. -/
theorem register_creates_empty_profile_witness :
    ((register ⟨[], [], [], [], [], 0, 0⟩ ⟨"u", "u@x.com", "pw", "pw"⟩).1.profiles.filter
        (fun q => q.user == 0)).length = 1 :=
  (register_creates_empty_profile ⟨[], [], [], [], [], 0, 0⟩
      ⟨"u", "u@x.com", "pw", "pw"⟩ rfl).2.2.2
    (fun q hq => absurd hq (List.not_mem_nil q))

/-- C9: a user with no Profile row serializes without error to the
default-shaped object: email-derived name, "Location not set", null age and
gender, profession "Adventurer", null photos, completeness false. -/
theorem missing_profile_defaults (request : Option String) (email : String) :
    get_profile request none email =
      { name := format_email_to_name email,
        current_location := "Location not set",
        age := none,
        gender := none,
        profession := "Adventurer",
        photos := none,
        is_profile_complete := false } := rfl

/-- C10: falsy stored age and gender are coerced to null in the serialized
profile: stored age 0 (or null) reports as null age, stored empty-string
gender (or null) reports as null gender. -/
theorem falsy_age_gender_null (request : Option String) (p : Profile)
    (email : String) :
    ((p.age = some 0 ∨ p.age = none) →
      (get_profile request (some p) email).age = none) ∧
    ((p.gender = some "" ∨ p.gender = none) →
      (get_profile request (some p) email).gender = none) := by
  constructor
  · rintro (h | h) <;> simp [get_profile, truthyInt, h]
  · rintro (h | h) <;> simp [get_profile, truthyStr, h]

/-- Witness for C10: the profile shape a fresh registration stores
(age 0, empty gender) serializes with null age and gender. -/
theorem falsy_age_gender_null_witness :
    (get_profile none
        (some ⟨0, some "", some "", some 0, some "", none, none⟩) "u@x.com").age =
      none ∧
    (get_profile none
        (some ⟨0, some "", some "", some 0, some "", none, none⟩) "u@x.com").gender =
      none :=
  ⟨(falsy_age_gender_null none ⟨0, some "", some "", some 0, some "", none, none⟩
      "u@x.com").1 (Or.inl rfl),
   (falsy_age_gender_null none ⟨0, some "", some "", some 0, some "", none, none⟩
      "u@x.com").2 (Or.inl rfl)⟩

/-- C3: the displayed name is the profile name when that is set (truthy);
when the profile name is unset, or there is no profile row, the name is
derived from the email by `format_email_to_name`; on the spec's example the
derivation yields "Jane Doe Smith". -/
theorem display_name_resolution (request : Option String) (p : Profile)
    (email : String) :
    (truthyStr p.name = false →
      (get_profile request (some p) email).name = format_email_to_name email) ∧
    ((get_profile request none email).name = format_email_to_name email) ∧
    (∀ s, p.name = some s → s ≠ "" →
      (get_profile request (some p) email).name = s) ∧
    format_email_to_name "jane.doe_smith@x.com" = "Jane Doe Smith" := by
  refine ⟨?_, rfl, ?_, by decide⟩
  · intro h
    simp [get_profile, h]
  · intro s hs hne
    have ht : truthyStr (some s) = true := by
      simp [truthyStr, bne_iff_ne, hne]
    simp [get_profile, hs, ht]

/-- Witness for C3: a profile with empty (falsy) name displays the
email-derived name on the spec's example, and a set name is returned
unchanged. -/
theorem display_name_resolution_witness :
    (get_profile none (some ⟨0, some "", some "Goa", some 25, some "F", none, none⟩)
        "jane.doe_smith@x.com").name = "Jane Doe Smith" ∧
    (get_profile none (some ⟨0, some "Alice", some "Goa", some 25, some "F", none, none⟩)
        "jane.doe_smith@x.com").name = "Alice" := by
  constructor
  · have h := display_name_resolution none
      ⟨0, some "", some "Goa", some 25, some "F", none, none⟩ "jane.doe_smith@x.com"
    exact (h.1 (by decide)).trans h.2.2.2
  · exact (display_name_resolution none
      ⟨0, some "Alice", some "Goa", some 25, some "F", none, none⟩
      "jane.doe_smith@x.com").2.2.1 "Alice" rfl (by decide)

/-- C4 counterexample: the email "@domain" has no local-part content, yet
the derived display name is the empty string, not "Anonymous Traveler". -/
theorem anonymous_fallback_cex :
    (get_profile none none "@domain").name ≠ "Anonymous Traveler" ∧
    (get_profile none none "@domain").name = "" := by decide

/-- C4 amended: only a falsy (empty) email falls back to
"Anonymous Traveler"; a non-empty email whose local part is empty (any
email beginning with '@') derives the empty string instead. -/
theorem anonymous_fallback_amended :
    (∀ (request : Option String) (email : String), email = "" →
      (get_profile request none email).name = "Anonymous Traveler") ∧
    (∀ r : List Char, format_email_to_name (String.mk ('@' :: r)) = "") := by
  constructor
  · intro request email h
    subst h
    rfl
  · intro r
    have hne : String.mk ('@' :: r) ≠ "" := by
      intro h
      have h2 := congrArg String.data h
      simp at h2
    simp only [format_email_to_name, if_neg hne]
    rfl

/-- Witness for C4's amendment: the empty email yields the placeholder and
"@domain" yields the empty string. -/
theorem anonymous_fallback_amended_witness :
    (get_profile none none "").name = "Anonymous Traveler" ∧
    format_email_to_name (String.mk ('@' :: "domain".toList)) = "" :=
  ⟨anonymous_fallback_amended.1 none "" rfl,
   anonymous_fallback_amended.2 "domain".toList⟩

/-- C5: the forward seed migration is idempotent for "Goa": a second run is
a no-op on any state, and starting from a state satisfying the store's
uniqueness invariant (at most one city named "Goa"), one run preserves
that bound. -/
theorem add_goa_idempotent (db : DB) (m1 m2 : Bool)
    (hinv : (db.cities.filter (fun c => c.name == "Goa")).length ≤ 1) :
    add_goa_destination m2 (add_goa_destination m1 db) =
      add_goa_destination m1 db ∧
    ((add_goa_destination m1 db).cities.filter
        (fun c => c.name == "Goa")).length ≤ 1 := by
  cases hany : db.cities.any (fun c => c.name == "Goa") with
  | true =>
    have hid : ∀ m, add_goa_destination m db = db := fun m => by
      simp [add_goa_destination, hany]
    rw [hid m1]
    exact ⟨hid m2, hinv⟩
  | false =>
    have hnil : db.cities.filter (fun c => c.name == "Goa") = [] := by
      rw [List.filter_eq_nil_iff]
      intro c hc
      exact (List.any_eq_false.mp hany c hc)
    have h1 : add_goa_destination m1 db =
        { db with cities := db.cities ++
            [{ name := "Goa",
               image := if m1 then some "Goa.jpg" else none }] } := by
      simp [add_goa_destination, hany]
    constructor
    · rw [h1]
      simp [add_goa_destination, List.any_append]
    · rw [h1]
      simp [List.filter_append, hnil]

/-- Witness for C5 over the empty store. -/
theorem add_goa_idempotent_witness :
    add_goa_destination false (add_goa_destination true ⟨[], [], [], [], [], 0, 0⟩) =
      add_goa_destination true ⟨[], [], [], [], [], 0, 0⟩ ∧
    ((add_goa_destination true ⟨[], [], [], [], [], 0, 0⟩).cities.filter
        (fun c => c.name == "Goa")).length ≤ 1 :=
  add_goa_idempotent ⟨[], [], [], [], [], 0, 0⟩ true false (by decide)

/-- C6: the reverse seed migration deletes exactly the city rows named
"Goa" (membership characterization), preserves the multiplicity of every
other city row, and touches no other table. -/
theorem remove_goa_exact (db : DB) :
    (∀ c : City,
      c ∈ (remove_goa_destination db).cities ↔ c ∈ db.cities ∧ c.name ≠ "Goa") ∧
    (∀ c : City, c.name ≠ "Goa" →
      (remove_goa_destination db).cities.count c = db.cities.count c) ∧
    (remove_goa_destination db).users = db.users ∧
    (remove_goa_destination db).profiles = db.profiles ∧
    (remove_goa_destination db).trips = db.trips ∧
    (remove_goa_destination db).itineraries = db.itineraries := by
  refine ⟨?_, ?_, rfl, rfl, rfl, rfl⟩
  · intro c
    simp [remove_goa_destination, List.mem_filter, bne_iff_ne]
  · intro c hc
    have hp : (c.name != "Goa") = true := bne_iff_ne.mpr hc
    exact List.count_filter hp

/-- Witness for C6: a non-Goa row keeps its multiplicity. -/
theorem remove_goa_exact_witness :
    (remove_goa_destination
        ⟨[], [], [⟨"Goa", none⟩, ⟨"Pune", none⟩], [], [], 0, 0⟩).cities.count
        ⟨"Pune", none⟩ =
      (⟨[], [], [⟨"Goa", none⟩, ⟨"Pune", none⟩], [], [], 0, 0⟩ : DB).cities.count
        ⟨"Pune", none⟩ :=
  (remove_goa_exact ⟨[], [], [⟨"Goa", none⟩, ⟨"Pune", none⟩], [], [], 0, 0⟩).2.1
    ⟨"Pune", none⟩ (by decide)

/-- The trip-creation fold only appends itinerary rows: its effect on the
store is exactly one appended row per entry. -/
theorem trip_foldl_itineraries (tid : Nat) (l : List ItineraryEntry) (d : DB) :
    (l.foldl
        (fun d item =>
          { d with itineraries :=
              d.itineraries ++ [{ trip := tid, day := item.day,
                                  description := item.description }] })
        d) =
      { d with itineraries := d.itineraries ++
          l.map (fun e => { trip := tid, day := e.day,
                            description := e.description }) } := by
  induction l generalizing d with
  | nil => simp
  | cons e es ih => simp [List.foldl, ih, List.append_assoc]

/-- Mapped itinerary rows all carry the new trip id, so filtering on it
keeps them all. -/
theorem filter_map_trip (tid : Nat) (l : List ItineraryEntry) :
    ((l.map (fun e => (⟨tid, e.day, e.description⟩ : TripItinerary))).filter
        (fun r => r.trip == tid)) =
      l.map (fun e => (⟨tid, e.day, e.description⟩ : TripItinerary)) := by
  induction l with
  | nil => rfl
  | cons e es ih => simp [ih]

/-- C7: creating a trip with N itinerary entries persists (under the
freshness invariant on trip ids) exactly the N corresponding itinerary
rows linked to the new trip, each carrying its entry's day and
description, and stores the trip with the request user as host. -/
theorem trip_create_persists_itinerary (db : DB) (u : Nat) (data : TripData)
    (itinerary : List ItineraryEntry)
    (hfresh : ∀ row ∈ db.itineraries, row.trip ≠ db.nextTripId) :
    ((trip_create db u data itinerary).1.itineraries.filter
        (fun r => r.trip == (trip_create db u data itinerary).2)) =
      itinerary.map (fun e => { trip := (trip_create db u data itinerary).2,
                                day := e.day, description := e.description }) ∧
    ((trip_create db u data itinerary).1.itineraries.filter
        (fun r => r.trip == (trip_create db u data itinerary).2)).length =
      itinerary.length ∧
    (trip_create db u data itinerary).2 = db.nextTripId ∧
    (∃ t ∈ (trip_create db u data itinerary).1.trips,
      t.id = (trip_create db u data itinerary).2 ∧ t.host = u ∧
      t.toTripData = data) := by
  have htid : (trip_create db u data itinerary).2 = db.nextTripId := rfl
  have hnil : db.itineraries.filter (fun r => r.trip == db.nextTripId) = [] := by
    rw [List.filter_eq_nil_iff]
    intro r hr
    simp [hfresh r hr]
  have hits : (trip_create db u data itinerary).1.itineraries =
      db.itineraries ++
        itinerary.map (fun e => { trip := db.nextTripId, day := e.day,
                                  description := e.description }) := by
    simp [trip_create, trip_foldl_itineraries]
  have hfilter : ((trip_create db u data itinerary).1.itineraries.filter
      (fun r => r.trip == (trip_create db u data itinerary).2)) =
      itinerary.map (fun e => { trip := (trip_create db u data itinerary).2,
                                day := e.day, description := e.description }) := by
    rw [htid, hits, List.filter_append, hnil, List.nil_append, filter_map_trip]
  refine ⟨hfilter, ?_, htid, ?_⟩
  · rw [hfilter]
    simp
  · refine ⟨{ toTripData := data, id := db.nextTripId, host := u }, ?_, rfl, rfl, rfl⟩
    show _ ∈ (trip_create db u data itinerary).1.trips
    have htr : (trip_create db u data itinerary).1.trips =
        db.trips ++ [{ toTripData := data, id := db.nextTripId, host := u }] := by
      simp [trip_create, trip_foldl_itineraries]
    rw [htr]
    simp

/-- Witness for C7: two itinerary entries over the empty store persist as
exactly two rows linked to the new trip. -/
theorem trip_create_persists_itinerary_witness :
    ((trip_create ⟨[], [], [], [], [], 0, 0⟩ 7 ⟨"g", 1, "s", "e", "d", 0, 18, 30, 4⟩
        [⟨1, "beach"⟩, ⟨2, "fort"⟩]).1.itineraries.filter
      (fun r => r.trip ==
        (trip_create ⟨[], [], [], [], [], 0, 0⟩ 7 ⟨"g", 1, "s", "e", "d", 0, 18, 30, 4⟩
          [⟨1, "beach"⟩, ⟨2, "fort"⟩]).2)).length = 2 :=
  (trip_create_persists_itinerary ⟨[], [], [], [], [], 0, 0⟩ 7
      ⟨"g", 1, "s", "e", "d", 0, 18, 30, 4⟩ [⟨1, "beach"⟩, ⟨2, "fort"⟩]
      (fun r hr => absurd hr (List.not_mem_nil r))).2.1

end TravelWithGhost
